import Mathlib

/-!
Shallow embedding of the DNF package-manifest reconciliation tool
(`scripts/manifest.py`): the data model (`SystemState`, the per-host
manifest document), the state probe `get_system_state`, and the engine
operations `status`, `pull` and `apply`/`diff`.

Sets of package identifiers are modelled as `Finset String` (the Python
code uses `set[str]`).  The `meta` table of the manifest (hostname,
timestamp, managed_by tag) is carried by load/save only and plays no role
in any drift computation, so it is omitted from the embedding.
-/

namespace Manifested

/-- `SystemState` dataclass: current system package state, one set of
opaque identifiers per ecosystem. -/
structure SystemState where
  packages : Finset String
  groups : Finset String
  flatpaks : Finset String
  copr_repos : Finset String
deriving DecidableEq

/-- The `packages` table of a manifest document:
`packages.system`, `packages.optional`, `packages.groups`. -/
structure PackagesTable where
  system : Finset String
  optional : Finset String
  groups : Finset String
deriving DecidableEq

/-- The `flatpak` table of a manifest document: `flatpak.packages`. -/
structure FlatpakTable where
  packages : Finset String
deriving DecidableEq

/-- The `copr` table of a manifest document: `copr.repos`. -/
structure CoprTable where
  repos : Finset String
deriving DecidableEq

/-- The `excluded` table of a manifest document: `excluded.packages`. -/
structure ExcludedTable where
  packages : Finset String
deriving DecidableEq

/-- A per-host manifest document, as produced by `load_manifest` (the
`meta` table is omitted: it never enters drift computation). -/
structure Manifest where
  packages : PackagesTable
  flatpak : FlatpakTable
  copr : CoprTable
  excluded : ExcludedTable
deriving DecidableEq

/-! ### status (lines 130-183): drift computation and exit code -/

/-- `declared_pkgs` in `status`: `packages.system ∪ packages.optional`. -/
def declared_pkgs (manifest : Manifest) : Finset String :=
  manifest.packages.system ∪ manifest.packages.optional

/-- `missing = declared_pkgs - state.packages` (line 140). -/
def status_missing (manifest : Manifest) (state : SystemState) : Finset String :=
  declared_pkgs manifest \ state.packages

/-- `extra = state.packages - declared_pkgs - excluded` (line 141). -/
def status_extra (manifest : Manifest) (state : SystemState) : Finset String :=
  (state.packages \ declared_pkgs manifest) \ manifest.excluded.packages

/-- `missing_flatpaks = declared_flatpaks - state.flatpaks` (line 164). -/
def status_missing_flatpaks (manifest : Manifest) (state : SystemState) : Finset String :=
  manifest.flatpak.packages \ state.flatpaks

/-- `extra_flatpaks = state.flatpaks - declared_flatpaks` (line 165);
note that `excluded` is not subtracted here. -/
def status_extra_flatpaks (manifest : Manifest) (state : SystemState) : Finset String :=
  state.flatpaks \ manifest.flatpak.packages

/-- Exit code of `status` (lines 179-183): `0` when `missing`, `extra`
and `missing_flatpaks` are all empty, otherwise `1` exactly when
`missing` or `missing_flatpaks` is non-empty.  Python truthiness of a
set is non-emptiness. -/
def status_exit (manifest : Manifest) (state : SystemState) : Nat :=
  if status_missing manifest state = ∅ ∧ status_extra manifest state = ∅ ∧
      status_missing_flatpaks manifest state = ∅ then 0
  else if status_missing manifest state ≠ ∅ ∨ status_missing_flatpaks manifest state ≠ ∅ then 1
  else 0

/-! ### pull (lines 186-220): merge system reality into the manifest -/

/-- `pull` (lines 186-220), the pure manifest transformation: new primary
packages `state.packages - (system ∪ optional) - excluded` are merged
into `packages.optional` when non-empty; new flatpaks
`state.flatpaks - flatpak.packages` are merged into `flatpak.packages`
when non-empty.  (`save_manifest`, which stamps `meta.updated`, is the
external persistence step.) -/
def pull (manifest : Manifest) (state : SystemState) : Manifest :=
  let current_system := manifest.packages.system
  let current_optional := manifest.packages.optional
  let excluded := manifest.excluded.packages
  let all_declared := current_system ∪ current_optional
  let new_packages := (state.packages \ all_declared) \ excluded
  let manifest1 :=
    if new_packages ≠ ∅ then
      { manifest with
          packages := { manifest.packages with optional := current_optional ∪ new_packages } }
    else manifest
  let current_flatpaks := manifest.flatpak.packages
  let new_flatpaks := state.flatpaks \ current_flatpaks
  if new_flatpaks ≠ ∅ then
    { manifest1 with flatpak := { packages := current_flatpaks ∪ new_flatpaks } }
  else manifest1

/-! ### apply / diff (lines 223-260): enforced-only convergence -/

/-- One installer invocation performed by `apply`: either the single
batched `sudo dnf install -y <sorted missing>` call (line 248) or one
`flatpak install -y <id>` call (line 257). -/
inductive Invocation where
  | dnf_install : List String → Invocation
  | flatpak_install : String → Invocation
deriving DecidableEq

/-- `missing = declared_pkgs - state.packages` in `apply` (line 230),
where `declared_pkgs` is only `packages.system` (line 229): optional and
group declarations are out of install scope. -/
def apply_missing (manifest : Manifest) (state : SystemState) : Finset String :=
  manifest.packages.system \ state.packages

/-- `missing_flatpaks = declared_flatpaks - state.flatpaks` in `apply`
(line 236). -/
def apply_missing_flatpaks (manifest : Manifest) (state : SystemState) : Finset String :=
  manifest.flatpak.packages \ state.flatpaks

/-- `sorted(s)` on a set of identifiers: the ascending enumeration. -/
def sorted (s : Finset String) : List String :=
  s.sort (· ≤ ·)

/-- `apply` (lines 223-260): returns the computed/printed plan (the
`missing` and `missing_flatpaks` sets) together with the list of
installer invocations performed.  With `dry_run = true` (the `diff`
command) no invocation is performed; otherwise one batched dnf call for
the whole `missing` set and one flatpak call per element of
`missing_flatpaks`, in sorted order.  The early return at line 238 fires
when both sets are empty. -/
def apply_run (manifest : Manifest) (state : SystemState) (dry_run : Bool) :
    (Finset String × Finset String) × List Invocation :=
  let missing := apply_missing manifest state
  let missing_flatpaks := apply_missing_flatpaks manifest state
  if missing = ∅ ∧ missing_flatpaks = ∅ then
    ((missing, missing_flatpaks), [])
  else
    let dnf_calls :=
      if missing ≠ ∅ ∧ dry_run = false then [Invocation.dnf_install (sorted missing)] else []
    let flatpak_calls :=
      if missing_flatpaks ≠ ∅ ∧ dry_run = false then
        (sorted missing_flatpaks).map Invocation.flatpak_install
      else []
    ((missing, missing_flatpaks), dnf_calls ++ flatpak_calls)

/-! ### get_system_state (lines 90-127): the state probe -/

/-- Outcome of `run_cmd` for one external query: the tool is absent
(`FileNotFoundError`), or the command ran with a return code and some
standard output. -/
inductive CmdOutcome where
  | not_found : CmdOutcome
  | ran : Int → String → CmdOutcome
deriving DecidableEq

/-- The environment probed by `get_system_state`: the outcome of each of
the three external commands, and the stems of the `_copr*.repo` files in
`/etc/yum.repos.d` (`none` when the directory does not exist). -/
structure ProbeEnv where
  dnf_repoquery : CmdOutcome
  dnf_group_list : CmdOutcome
  flatpak_list : CmdOutcome
  copr_dir : Option (List String)
deriving DecidableEq

/-- `set(result.stdout.strip().split("\n")) - {""}` (lines 97 and 116). -/
def parse_lines (stdout : String) : Finset String :=
  (stdout.trim.splitOn "\n").toFinset \ {""}

/-- Group-name normalization (line 108): `line.lower().replace(" ", "-")`. -/
def normalize_group (line : String) : String :=
  line.toLower.replace " " "-"

/-- The group-list parsing loop (lines 104-108): strip each line, keep
non-empty lines not starting with "Installed", normalize. -/
def parse_groups (stdout : String) : Finset String :=
  (((stdout.trim.splitOn "\n").map String.trim).filter
    (fun line => !line.isEmpty && !line.startsWith "Installed")).map normalize_group |>.toFinset

/-- COPR repo name from a file stem (line 124):
`f.stem.replace("_copr:", "").replace("_copr_", "")`. -/
def copr_name (stem : String) : String :=
  (stem.replace "_copr:" "").replace "_copr_" ""

/-- `get_system_state` (lines 90-127): build a `SystemState` from the
four probes in sequence, starting from all-empty sets, together with the
warnings printed to standard error.
* DNF packages (`check=True`): a non-zero exit or an absent tool raises,
  is caught, leaves the set empty and prints the only warning.
* DNF groups (`check=False`): only an absent tool is caught (silently);
  any completed run has its stdout parsed regardless of exit code.
* Flatpaks (`check=False`): absent tool caught silently; stdout used
  only when the exit code is 0.
* COPR repos: file stems of `_copr*.repo`, none when the directory is
  missing. -/
def get_system_state (env : ProbeEnv) : SystemState × List String :=
  let state0 : SystemState := ⟨∅, ∅, ∅, ∅⟩
  let step1 : SystemState × List String :=
    match env.dnf_repoquery with
    | CmdOutcome.not_found => (state0, ["Warning: Could not query DNF packages"])
    | CmdOutcome.ran rc out =>
        if rc = 0 then ({ state0 with packages := parse_lines out }, [])
        else (state0, ["Warning: Could not query DNF packages"])
  let step2 : SystemState × List String :=
    match env.dnf_group_list with
    | CmdOutcome.not_found => step1
    | CmdOutcome.ran _ out => ({ step1.1 with groups := parse_groups out }, step1.2)
  let step3 : SystemState × List String :=
    match env.flatpak_list with
    | CmdOutcome.not_found => step2
    | CmdOutcome.ran rc out =>
        if rc = 0 then ({ step2.1 with flatpaks := parse_lines out }, step2.2) else step2
  match env.copr_dir with
  | none => step3
  | some stems => ({ step3.1 with copr_repos := (stems.map copr_name).toFinset }, step3.2)

/-- Whether an invocation is the batched dnf install call. -/
def Invocation.is_dnf : Invocation → Bool
  | Invocation.dnf_install _ => true
  | Invocation.flatpak_install _ => false

/-- The flatpak identifier of an invocation, when it is a flatpak call. -/
def Invocation.flatpak_arg : Invocation → Option String
  | Invocation.dnf_install _ => none
  | Invocation.flatpak_install p => some p

/-- The system state after all of a run's installs succeed and nothing
else changes: the observed sets plus the respective missing sets. -/
def post_apply_state (manifest : Manifest) (state : SystemState) : SystemState :=
  { state with
      packages := state.packages ∪ apply_missing manifest state,
      flatpaks := state.flatpaks ∪ apply_missing_flatpaks manifest state }

/-! ### Concrete inputs used by witnesses and counterexamples -/

/-- A manifest with one enforced package, one excluded package. -/
def c1M : Manifest :=
  { packages := { system := {"git"}, optional := ∅, groups := ∅ },
    flatpak := { packages := ∅ }, copr := { repos := ∅ },
    excluded := { packages := {"htop"} } }

/-- A state where the excluded package is installed. -/
def c1S : SystemState :=
  { packages := {"git", "htop"}, groups := ∅, flatpaks := ∅, copr_repos := ∅ }

/-- A manifest that excludes a flatpak identifier it does not declare. -/
def c3M : Manifest :=
  { packages := { system := ∅, optional := ∅, groups := ∅ },
    flatpak := { packages := ∅ }, copr := { repos := ∅ },
    excluded := { packages := {"ex.App"} } }

/-- A state where exactly that excluded identifier is an installed flatpak. -/
def c3S : SystemState :=
  { packages := ∅, groups := ∅, flatpaks := {"ex.App"}, copr_repos := ∅ }

/-- A manifest with one enforced package and one enforced flatpak. -/
def c4M : Manifest :=
  { packages := { system := {"curl"}, optional := ∅, groups := ∅ },
    flatpak := { packages := {"fp.App"} }, copr := { repos := ∅ },
    excluded := { packages := ∅ } }

/-- An empty observed state. -/
def c4S : SystemState :=
  { packages := ∅, groups := ∅, flatpaks := ∅, copr_repos := ∅ }

/-- A probe environment where the flatpak tool is absent and the other
three probes succeed. -/
def c7Env : ProbeEnv :=
  { dnf_repoquery := CmdOutcome.ran 0 "",
    dnf_group_list := CmdOutcome.ran 0 "",
    flatpak_list := CmdOutcome.not_found,
    copr_dir := some [] }

/-- A probe environment where every ecosystem probe fails: the dnf and
group tools are absent, the flatpak query exits non-zero, and the repo
directory does not exist. -/
def c7FailEnv : ProbeEnv :=
  { dnf_repoquery := CmdOutcome.not_found,
    dnf_group_list := CmdOutcome.not_found,
    flatpak_list := CmdOutcome.ran 1 "",
    copr_dir := none }

/-- A manifest that declares no flatpaks but excludes one identifier. -/
def c10M : Manifest :=
  { packages := { system := ∅, optional := ∅, groups := ∅ },
    flatpak := { packages := ∅ }, copr := { repos := ∅ },
    excluded := { packages := {"fp.Ex"} } }

/-- A state where that excluded identifier is an installed flatpak. -/
def c10S : SystemState :=
  { packages := ∅, groups := ∅, flatpaks := {"fp.Ex"}, copr_repos := ∅ }

/-! ### Theorems -/

/-- C1: `status` computes `missing` as the union of the system and
optional declarations minus the observed packages, and `extra` as the
observed packages minus that union minus the excluded set; in
particular every excluded identifier is suppressed from `extra`. -/
theorem status_drift_sets (manifest : Manifest) (state : SystemState) :
    status_missing manifest state =
      (manifest.packages.system ∪ manifest.packages.optional) \ state.packages ∧
    status_extra manifest state =
      (state.packages \ (manifest.packages.system ∪ manifest.packages.optional)) \
        manifest.excluded.packages ∧
    ∀ x, x ∈ manifest.excluded.packages → x ∉ status_extra manifest state := by
  refine ⟨rfl, rfl, ?_⟩
  intro x hx
  simp [status_extra, Finset.mem_sdiff, hx]

/-- Witness for `status_drift_sets` at a concrete manifest and state:
the excluded, installed package `htop` is not reported as extra. -/
theorem status_drift_sets_witness : "htop" ∉ status_extra c1M c1S :=
  (status_drift_sets c1M c1S).2.2 "htop" (by decide)

/-- C2: `pull` merges exactly
`state.packages ∖ (system ∪ optional) ∖ excluded` into
`packages.optional` and leaves `packages.system` unchanged (so it never
adds an element to it). -/
theorem pull_optional_merge (manifest : Manifest) (state : SystemState) :
    (pull manifest state).packages.optional =
      manifest.packages.optional ∪
        ((state.packages \ (manifest.packages.system ∪ manifest.packages.optional)) \
          manifest.excluded.packages) ∧
    (pull manifest state).packages.system = manifest.packages.system := by
  simp only [pull]
  split_ifs with h1 h2 h2 <;> simp_all <;> intro x hx <;>
    exact absurd (h2 (Finset.mem_sdiff.mp hx).1) (Finset.mem_sdiff.mp hx).2

/-- C3 counterexample: `pull` does not subtract `excluded.packages` when
merging flatpaks.  With an empty declared flatpak set, an installed
flatpak `ex.App` and `excluded.packages = {"ex.App"}`, the claimed merge
set `flatpaks ∖ declared ∖ excluded` is empty, yet `pull` adds the
excluded identifier to `flatpak.packages`. -/
theorem pull_flatpak_exclusion_cex :
    (pull c3M c3S).flatpak.packages ≠
      c3M.flatpak.packages ∪
        ((c3S.flatpaks \ c3M.flatpak.packages) \ c3M.excluded.packages) := by
  decide

/-- C3 (amended): `pull` merges into `flatpak.packages` exactly
`state.flatpaks ∖ flatpak.packages`, directly into the one enforced
flatpak set (no optional/system split), without subtracting
`excluded.packages`. -/
theorem pull_flatpak_merge (manifest : Manifest) (state : SystemState) :
    (pull manifest state).flatpak.packages =
      manifest.flatpak.packages ∪ (state.flatpaks \ manifest.flatpak.packages) := by
  simp only [pull]
  split_ifs with h1 h2 h2 <;> simp_all

/-- C6: the `status` exit code is non-zero exactly when `missing` or
`missing_flatpaks` is non-empty; when both are empty it is `0` no matter
how large `extra` or `extra_flatpaks` are. -/
theorem status_exit_policy (manifest : Manifest) (state : SystemState) :
    status_exit manifest state ≠ 0 ↔
      (status_missing manifest state ≠ ∅ ∨ status_missing_flatpaks manifest state ≠ ∅) := by
  unfold status_exit
  split_ifs with h1 h2 <;> simp_all

/-- C9: `pull` only ever grows the manifest's sets:
`packages.system`, `packages.optional` and `flatpak.packages` of the
result are supersets of their pre-pull values. -/
theorem pull_supersets (manifest : Manifest) (state : SystemState) :
    manifest.packages.system ⊆ (pull manifest state).packages.system ∧
    manifest.packages.optional ⊆ (pull manifest state).packages.optional ∧
    manifest.flatpak.packages ⊆ (pull manifest state).flatpak.packages := by
  simp only [pull]
  split_ifs with h1 h2 h2 <;>
    refine ⟨Finset.Subset.refl _, ?_, ?_⟩ <;>
      simp [Finset.subset_union_left]

/-- C10: the flatpak `extra` set of `status` never consults
`excluded.packages`: replacing the excluded set by anything leaves
`extra_flatpaks` unchanged, and an installed, undeclared flatpak is
reported as extra even when its identifier is excluded. -/
theorem status_extra_flatpaks_unaffected (manifest : Manifest) (state : SystemState)
    (E : Finset String) :
    status_extra_flatpaks { manifest with excluded := { packages := E } } state =
      status_extra_flatpaks manifest state ∧
    ∀ x, x ∈ state.flatpaks → x ∉ manifest.flatpak.packages →
      x ∈ status_extra_flatpaks manifest state := by
  refine ⟨rfl, ?_⟩
  intro x hx hn
  simp [status_extra_flatpaks, Finset.mem_sdiff, hx, hn]

/-- Witness for `status_extra_flatpaks_unaffected`: the excluded,
installed, undeclared flatpak `fp.Ex` is reported as extra. -/
theorem status_extra_flatpaks_unaffected_witness :
    "fp.Ex" ∈ status_extra_flatpaks c10M c10S :=
  (status_extra_flatpaks_unaffected c10M c10S ∅).2 "fp.Ex" (by decide) (by decide)

/-- The sorted enumeration of a set of identifiers enumerates exactly
that set. -/
theorem sorted_toFinset (s : Finset String) : (sorted s).toFinset = s := by
  simp [sorted]

/-- `filterMap flatpak_arg` recovers the identifiers of a block of
flatpak invocations. -/
theorem filterMap_flatpak_arg_map (l : List String) :
    List.filterMap Invocation.flatpak_arg (l.map Invocation.flatpak_install) = l := by
  induction l with
  | nil => rfl
  | cons a t ih => simp [Invocation.flatpak_arg, ih]

/-- Composite form of `filterMap_flatpak_arg_map`. -/
theorem filterMap_flatpak_arg_comp (l : List String) :
    List.filterMap (Invocation.flatpak_arg ∘ Invocation.flatpak_install) l = l := by
  induction l with
  | nil => rfl
  | cons a t ih => simp [Invocation.flatpak_arg, Function.comp, ih]

/-- C4: a real `apply` run installs exactly
`missing = packages.system ∖ state.packages` (optional and group
declarations never enter the install scope) and
`missing_flatpaks = flatpak.packages ∖ state.flatpaks`: there is one
batched dnf invocation exactly when `missing` is non-empty, any batched
invocation carries the whole `missing` set, and the flatpak invocations
are exactly one per identifier of `missing_flatpaks`, in sorted order. -/
theorem apply_installs_exactly (manifest : Manifest) (state : SystemState) :
    apply_missing manifest state = manifest.packages.system \ state.packages ∧
    apply_missing_flatpaks manifest state = manifest.flatpak.packages \ state.flatpaks ∧
    List.countP Invocation.is_dnf (apply_run manifest state false).2 =
      (if apply_missing manifest state = ∅ then 0 else 1) ∧
    (∀ ps, Invocation.dnf_install ps ∈ (apply_run manifest state false).2 →
      ps.toFinset = apply_missing manifest state) ∧
    List.filterMap Invocation.flatpak_arg (apply_run manifest state false).2 =
      sorted (apply_missing_flatpaks manifest state) := by
  refine ⟨rfl, rfl, ?_, ?_, ?_⟩ <;>
    simp only [apply_run] <;>
    by_cases h1 : apply_missing manifest state = ∅ <;>
      by_cases h2 : apply_missing_flatpaks manifest state = ∅ <;>
        simp_all [sorted, Invocation.is_dnf, Invocation.flatpak_arg, List.countP_append,
          List.countP_map, filterMap_flatpak_arg_map, filterMap_flatpak_arg_comp,
          sorted_toFinset]

/-- Witness for `apply_installs_exactly`: with `system = {"curl"}` and
an empty observed state, the batched invocation carries `{"curl"}`. -/
theorem apply_installs_exactly_witness :
    (["curl"] : List String).toFinset = apply_missing c4M c4S := by
  refine (apply_installs_exactly c4M c4S).2.2.2.1 ["curl"] ?_
  have hm : apply_missing c4M c4S = {"curl"} := by decide
  have hf : apply_missing_flatpaks c4M c4S = {"fp.App"} := by decide
  simp [apply_run, hm, hf, sorted, Finset.sort_singleton]

/-- C5: `diff` (`apply` in dry-run mode) computes exactly the plan
(`missing`, `missing_flatpaks`) that a real `apply` computes on the same
inputs, and performs zero installer invocations. -/
theorem diff_matches_apply (manifest : Manifest) (state : SystemState) :
    (apply_run manifest state true).1 = (apply_run manifest state false).1 ∧
    (apply_run manifest state true).2 = [] := by
  simp only [apply_run]
  split_ifs <;> simp_all

/-- C8: if after a successful `apply` the observed state is the old one
plus the installed missing sets, a second `apply` finds nothing missing
and performs no installer invocation. -/
theorem apply_idempotent (manifest : Manifest) (state : SystemState) :
    apply_missing manifest (post_apply_state manifest state) = ∅ ∧
    apply_missing_flatpaks manifest (post_apply_state manifest state) = ∅ ∧
    (apply_run manifest (post_apply_state manifest state) false).2 = [] := by
  have hp : apply_missing manifest (post_apply_state manifest state) = ∅ := by
    ext x
    simp [apply_missing, post_apply_state]
    tauto
  have hf : apply_missing_flatpaks manifest (post_apply_state manifest state) = ∅ := by
    ext x
    simp [apply_missing_flatpaks, post_apply_state]
    tauto
  refine ⟨hp, hf, ?_⟩
  simp [apply_run, hp, hf]

/-- Closed form of `get_system_state`: each field of the snapshot is a
function of its own probe outcome alone, and the diagnostics consist of
the DNF warning exactly when the dnf package query did not succeed. -/
theorem get_system_state_eq (env : ProbeEnv) :
    get_system_state env =
      ({ packages :=
            (match env.dnf_repoquery with
              | CmdOutcome.not_found => ∅
              | CmdOutcome.ran rc out => if rc = 0 then parse_lines out else ∅),
         groups :=
            (match env.dnf_group_list with
              | CmdOutcome.not_found => ∅
              | CmdOutcome.ran _ out => parse_groups out),
         flatpaks :=
            (match env.flatpak_list with
              | CmdOutcome.not_found => ∅
              | CmdOutcome.ran rc out => if rc = 0 then parse_lines out else ∅),
         copr_repos :=
            (match env.copr_dir with
              | none => ∅
              | some stems => (stems.map copr_name).toFinset) },
       (match env.dnf_repoquery with
         | CmdOutcome.not_found => ["Warning: Could not query DNF packages"]
         | CmdOutcome.ran rc _ =>
            if rc = 0 then [] else ["Warning: Could not query DNF packages"])) := by
  obtain ⟨q, g, f, c⟩ := env
  cases q <;> cases g <;> cases f <;> cases c <;>
    simp only [get_system_state] <;> split_ifs <;> rfl

/-- C7 counterexample: with the flatpak tool absent and the other three
probes succeeding, `get_system_state` leaves the flatpak set empty but
emits no diagnostic at all — only the primary package probe ever emits
one, so the claim's "a non-fatal diagnostic is emitted" fails for the
flatpak ecosystem (likewise groups and COPR). -/
theorem get_system_state_silent_degrade_cex :
    c7Env.flatpak_list = CmdOutcome.not_found ∧
    (get_system_state c7Env).1.flatpaks = ∅ ∧
    (get_system_state c7Env).2 = [] := by
  exact ⟨rfl, rfl, rfl⟩

/-- C7 (amended): when a probe's tool is absent or its query fails, the
corresponding set of the snapshot is empty (for the group probe, which
does not check the exit code, tool absence is the failing case), the
snapshot still completes with every other ecosystem's set computed from
its own probe outcome, and a non-fatal diagnostic is emitted only for
the primary package ecosystem — the other three degrade silently. -/
theorem get_system_state_degrades (env : ProbeEnv) :
    ((∀ out, env.dnf_repoquery ≠ CmdOutcome.ran 0 out) →
      (get_system_state env).1.packages = ∅ ∧
      (get_system_state env).2 = ["Warning: Could not query DNF packages"]) ∧
    (env.dnf_group_list = CmdOutcome.not_found → (get_system_state env).1.groups = ∅) ∧
    ((∀ out, env.flatpak_list ≠ CmdOutcome.ran 0 out) →
      (get_system_state env).1.flatpaks = ∅) ∧
    (env.copr_dir = none → (get_system_state env).1.copr_repos = ∅) ∧
    (∀ out, env.dnf_repoquery = CmdOutcome.ran 0 out →
      (get_system_state env).1.packages = parse_lines out ∧ (get_system_state env).2 = []) ∧
    (∀ rc out, env.dnf_group_list = CmdOutcome.ran rc out →
      (get_system_state env).1.groups = parse_groups out) ∧
    (∀ out, env.flatpak_list = CmdOutcome.ran 0 out →
      (get_system_state env).1.flatpaks = parse_lines out) ∧
    (∀ stems, env.copr_dir = some stems →
      (get_system_state env).1.copr_repos = (stems.map copr_name).toFinset) := by
  rw [get_system_state_eq]
  obtain ⟨q, g, f, c⟩ := env
  refine ⟨?_, ?_, ?_, ?_, ?_, ?_, ?_, ?_⟩
  · intro h
    cases q with
    | not_found => exact ⟨rfl, rfl⟩
    | ran rc out =>
        have h' : ∀ o, CmdOutcome.ran rc out ≠ CmdOutcome.ran 0 o := h
        have hrc : rc ≠ 0 := fun h0 => h' out (by rw [h0])
        simp [hrc]
  · intro h
    have hg : g = CmdOutcome.not_found := h
    subst hg
    rfl
  · intro h
    cases f with
    | not_found => rfl
    | ran rc out =>
        have h' : ∀ o, CmdOutcome.ran rc out ≠ CmdOutcome.ran 0 o := h
        have hrc : rc ≠ 0 := fun h0 => h' out (by rw [h0])
        simp [hrc]
  · intro h
    have hc : c = none := h
    subst hc
    rfl
  · intro out h
    have hq : q = CmdOutcome.ran 0 out := h
    subst hq
    exact ⟨by simp, by simp⟩
  · intro rc out h
    have hg : g = CmdOutcome.ran rc out := h
    subst hg
    rfl
  · intro out h
    have hf : f = CmdOutcome.ran 0 out := h
    subst hf
    simp
  · intro stems h
    have hc : c = some stems := h
    subst hc
    rfl

/-- Witness for `get_system_state_degrades`: with every probe failing,
all four sets are empty and the only diagnostic is the DNF warning. -/
theorem get_system_state_degrades_witness :
    (get_system_state c7FailEnv).1.packages = ∅ ∧
    (get_system_state c7FailEnv).1.groups = ∅ ∧
    (get_system_state c7FailEnv).1.flatpaks = ∅ ∧
    (get_system_state c7FailEnv).1.copr_repos = ∅ ∧
    (get_system_state c7FailEnv).2 = ["Warning: Could not query DNF packages"] := by
  obtain ⟨h1, h2, h3, h4, _⟩ := get_system_state_degrades c7FailEnv
  have hp := h1 (fun out h => by simp [c7FailEnv] at h)
  have hf := h3 (fun out h => by simp [c7FailEnv] at h)
  exact ⟨hp.1, h2 rfl, hf, h4 rfl, hp.2⟩

end Manifested
